import Mathlib

/-!
# Verification of the capture-and-upload core of `src/src/App.jsx`

This file is a shallow embedding of the hardened orchestrator in the second
version of `App.jsx` (the component using `status` / `retryCount` React state,
`getApiUrl`, `captureData` and `getLocationWithFallback`), together with
theorems about it.

Modelling conventions:
* Every `setStatus` call in the source is one constructor of `Status`;
  `statusText` records the exact string the source passes.
* Asynchronous races (the geolocation callback vs. the 10000 ms timer) are
  modelled as an explicit event interleaving folded over a promise state with
  resolve-once semantics, exactly as JavaScript promises behave.
* One attempt of `captureData` is a pure function from an environment
  (the outcomes of every external interaction of that attempt) to a trace of
  observable actions plus an outcome.
* The retry loop is modelled with explicit React closure semantics: the
  `captureData` instance invoked on mount captures the `retryCount` state value
  of the mount render (0); its recursive call inside the retry `setTimeout`
  refers to that same function instance, so the captured value never changes,
  while `setRetryCount` updates the state the UI displays.  `runMount` threads
  the captured value (`closureRC`) separately from the displayed state.
-/

namespace Capture

/-- The status values the component can display.  Each constructor stands for
one exact string passed to `setStatus` in the source (see `statusText`).
`fetchingIP` is the `FetchingIP` state named by the specification's state
machine; no `setStatus` call in the source produces it, and it is included in
the type precisely so that its absence from every trace can be stated. -/
inductive Status where
  | loading
  | requestingCamera
  | capturingPhoto
  | gettingLocation
  | gettingDeviceInfo
  | fetchingIP
  | savingData
  | success
  | errorMsg (msg : String)
  | retrying
  | failed
  deriving DecidableEq, Repr

/-- The exact string the source displays for each status.  `loading` is the
`useState` initial value; the others are the arguments of the `setStatus`
calls.  `fetchingIP` is given the specification's label; the source never
displays it. -/
def statusText : Status → String
  | .loading => "Loading Resources..."
  | .requestingCamera => "Requesting camera access..."
  | .capturingPhoto => "Capturing photo..."
  | .gettingLocation => "Getting location..."
  | .gettingDeviceInfo => "Getting device info..."
  | .fetchingIP => "Fetching IP..."
  | .savingData => "Saving data..."
  | .success => "✓ Data captured and saved successfully!"
  | .errorMsg msg => "Error: " ++ msg
  | .retrying => "Retrying..."
  | .failed => "Failed to capture. Please refresh and try again."

/-- `MAX_RETRIES` from the source. -/
def MAX_RETRIES : Nat := 3

/-! ## Endpoint resolver (`getApiUrl`, source lines 112–123) -/

/-- `getApiUrl`.  `vite` is `import.meta.env.VITE_API_URL` (`none` when the
variable is undefined); the source tests it with JavaScript truthiness, so a
defined-but-empty string also falls through to the derived URL.  `protocol`
and `hostname` are `window.location.protocol` / `window.location.hostname`.
The source reads no other part of `window.location`. -/
def getApiUrl (vite : Option String) (protocol hostname : String) : String :=
  match vite with
  | some u =>
      if u = "" then
        protocol ++ "//" ++ hostname ++
          (if hostname = "localhost" ∨ hostname = "127.0.0.1" then ":5000" else "")
      else u
  | none =>
      protocol ++ "//" ++ hostname ++
        (if hostname = "localhost" ∨ hostname = "127.0.0.1" then ":5000" else "")

/-- The page's own origin, per the URL standard backing
`window.location.origin`: `protocol ++ "//" ++ hostname`, followed by
`":" ++ port` exactly when the page's port is not the protocol default
(`window.location.port` is the empty string in that case). -/
def pageOrigin (protocol hostname port : String) : String :=
  protocol ++ "//" ++ hostname ++ (if port = "" then "" else ":" ++ port)

/-! ## Location resolver (`getLocationWithFallback`, source lines 238–279) -/

/-- Coordinates delivered by a successful `getCurrentPosition` callback. -/
structure Coords where
  latitude : Int
  longitude : Int
  accuracy : Int
  deriving DecidableEq, Repr

/-- The value `getLocationWithFallback` resolves with.  `accuracy` and
`error` are `none` when the corresponding key is absent from the object the
source builds. -/
structure LocationResult where
  latitude : Int
  longitude : Int
  accuracy : Option Int
  error : Option String
  deriving DecidableEq, Repr

/-- One event in the race inside `getLocationWithFallback`: the 10000 ms
timer firing, or the geolocation success / error callback running. -/
inductive GeoEvent where
  | timeoutFires
  | geoSuccess (pos : Coords)
  | geoError (msg : String)
  deriving DecidableEq, Repr

/-- The state of the promise built by `getLocationWithFallback`: its resolved
value, if any (a JavaScript promise settles at most once; a later `resolve`
call is a no-op), and whether the 10000 ms timer is still pending. -/
structure GeoState where
  resolved : Option LocationResult
  timerActive : Bool
  deriving DecidableEq, Repr

/-- Promise `resolve`: records the value only when the promise is still
pending. -/
def geoResolveOnce (st : GeoState) (v : LocationResult) : GeoState :=
  match st.resolved with
  | none => { st with resolved := some v }
  | some _ => st

/-- One event of the race, exactly as the source handles it:
* the timer callback resolves with the zeroed default carrying
  `"Location timeout - using default"` (a timer that already fired or was
  cleared does nothing);
* the success callback clears the timer and resolves with the coordinates
  plus accuracy;
* the error callback clears the timer and resolves with the zeroed default
  carrying `"Location error: " ++ err.message`. -/
def geoStep (st : GeoState) : GeoEvent → GeoState
  | .timeoutFires =>
      if st.timerActive then
        geoResolveOnce { st with timerActive := false }
          { latitude := 0, longitude := 0, accuracy := none,
            error := some "Location timeout - using default" }
      else st
  | .geoSuccess pos =>
      geoResolveOnce { st with timerActive := false }
        { latitude := pos.latitude, longitude := pos.longitude,
          accuracy := some pos.accuracy, error := none }
  | .geoError msg =>
      geoResolveOnce { st with timerActive := false }
        { latitude := 0, longitude := 0, accuracy := none,
          error := some ("Location error: " ++ msg) }

/-- The promise state after `getLocationWithFallback` sets the timer
(active) and the given events then run in order. -/
def geoRun (events : List GeoEvent) : GeoState :=
  events.foldl geoStep { resolved := none, timerActive := true }

/-- The value `await getLocationWithFallback()` yields for a given
interleaving: the resolved value of the final promise state (`none` means the
promise never settled, which cannot happen once any event runs, since the
timer starts active). -/
def geoResolve (events : List GeoEvent) : Option LocationResult :=
  (geoRun events).resolved

/-- The value the first race event resolves with (derived characterization,
proved equal to `geoResolve` on any interleaving beginning with that event). -/
def geoEventValue : GeoEvent → LocationResult
  | .timeoutFires =>
      { latitude := 0, longitude := 0, accuracy := none,
        error := some "Location timeout - using default" }
  | .geoSuccess pos =>
      { latitude := pos.latitude, longitude := pos.longitude,
        accuracy := some pos.accuracy, error := none }
  | .geoError msg =>
      { latitude := 0, longitude := 0, accuracy := none,
        error := some ("Location error: " ++ msg) }

/-! ## IP lookup (source lines 177–189 and the payload's `ipAddress`) -/

/-- The JSON body of a completed `ipinfo.io` response: its `ip` member.
`none` models an absent, `null`, or otherwise non-string `ip` member (all of
which `ipData?.ip` turns into a falsy value); `some s` a string member. -/
structure IpData where
  ip : Option String
  deriving DecidableEq, Repr

/-- Outcome of the guarded IP lookup:
* `fetchFails` — the `fetch` rejects (network error) or `ipResponse.json()`
  rejects (malformed body); the thrown error is caught by the inner `catch`;
* `timeout` — the 5000 ms timer wins the race; likewise caught;
* `ok` — the fetch resolves within 5000 ms and the body parses. -/
inductive IpOutcome where
  | fetchFails (err : String)
  | timeout
  | ok (data : IpData)
  deriving DecidableEq, Repr

/-- Whether the lookup failed outright (either caught error path). -/
def IpOutcome.isFailure : IpOutcome → Bool
  | .fetchFails _ => true
  | .timeout => true
  | .ok _ => false

/-- `ipData` after the guarded lookup: initialised to `{ ip: "Unknown" }` and
only overwritten when fetch and parse both succeed (the `catch` keeps the
initial value). -/
def resolveIpData : IpOutcome → IpData
  | .fetchFails _ => { ip := some "Unknown" }
  | .timeout => { ip := some "Unknown" }
  | .ok data => data

/-- `ipData?.ip || "Unknown"`: the `ip` member when it is truthy
(a non-empty string), `"Unknown"` otherwise. -/
def ipAddressOf (data : IpData) : String :=
  match data.ip with
  | some s => if s = "" then "Unknown" else s
  | none => "Unknown"

/-- The `ipAddress` field the payload receives for a given lookup outcome. -/
def ipAddressFor (o : IpOutcome) : String :=
  ipAddressOf (resolveIpData o)

/-! ## Payload (source lines 168–199) -/

/-- The `deviceInfo` object, built at assembly time from `navigator` fields
and `new Date().toISOString()`. -/
structure DeviceInfo where
  userAgent : String
  platform : String
  language : String
  timestamp : String
  deriving DecidableEq, Repr

/-- The `CapturePayload` combined at source lines 194–199.  The structure has
exactly the four fields of the object literal, in its insertion order. -/
structure Payload where
  image : String
  location : LocationResult
  deviceInfo : DeviceInfo
  ipAddress : String
  deriving DecidableEq, Repr

/-- `canvas.toDataURL("image/jpeg", 0.8)`: always a `data:` URL whose prefix
is the media type, followed by the base64 frame bits (`frame` is whatever the
browser rasterized). -/
def toDataURL (frame : String) : String :=
  "data:image/jpeg;base64," ++ frame

/-- A minimal JSON value model, enough to state what `JSON.stringify`
produces for the payload.  Object members keep JavaScript insertion order;
absent keys are simply not in the list (the source never stores `null` or
`undefined` in the payload, so no null constructor is needed to serialize
it). -/
inductive Json where
  | str (s : String)
  | num (n : Int)
  | obj (members : List (String × Json))

/-- The member names of a JSON object (empty for non-objects). -/
def Json.topKeys : Json → List String
  | .obj members => members.map Prod.fst
  | _ => []

/-- Serialization of the location object: `latitude` and `longitude` always;
`accuracy` exactly when the success callback set it; `error` exactly when a
fallback set it. -/
def LocationResult.toJson (l : LocationResult) : Json :=
  .obj ([("latitude", Json.num l.latitude), ("longitude", Json.num l.longitude)]
    ++ (match l.accuracy with
        | some a => [("accuracy", Json.num a)]
        | none => [])
    ++ (match l.error with
        | some e => [("error", Json.str e)]
        | none => []))

/-- Serialization of `deviceInfo`. -/
def DeviceInfo.toJson (d : DeviceInfo) : Json :=
  .obj [("userAgent", Json.str d.userAgent), ("platform", Json.str d.platform),
        ("language", Json.str d.language), ("timestamp", Json.str d.timestamp)]

/-- Serialization of the payload: exactly the four keys of the object
literal, in insertion order. -/
def Payload.toJson (p : Payload) : Json :=
  .obj [("image", Json.str p.image), ("location", p.location.toJson),
        ("deviceInfo", p.deviceInfo.toJson), ("ipAddress", Json.str p.ipAddress)]

/-! ## Upload submission (source lines 202–220) -/

deriving instance DecidableEq for Except

/-- Outcome of the guarded upload `fetch`:
* `timeout` — the 30000 ms timer wins; `"Upload timeout"` is thrown;
* `networkError` — the `fetch` itself rejects;
* `response status parse` — an HTTP response arrives; `parse` is the result
  of `response.json()` (only consulted on an ok status). -/
inductive UploadOutcome where
  | timeout
  | networkError (msg : String)
  | response (status : Nat) (parse : Except String Unit)
  deriving DecidableEq, Repr

/-- `response.ok` per the fetch standard: status in the range 200–299. -/
def respOk (status : Nat) : Bool :=
  200 ≤ status && status ≤ 299

/-! ## One attempt of `captureData` (source lines 125–236) -/

/-- Observable actions of one attempt, in program order:
status updates, camera stream acquisition and release (streams are named by
an identifier so reuse across attempts is statable), the single frame
rasterization+encoding, and the upload POST (URL, `Content-Type` header,
guarding timeout in ms, and the body handed to `JSON.stringify`). -/
inductive Action where
  | setStatus (s : Status)
  | acquireStream (id : Nat)
  | stopTracks (id : Nat)
  | encodeFrame
  | postUpload (url : String) (contentType : String) (timeoutMs : Nat) (body : Payload)
  deriving DecidableEq, Repr

/-- The page / build configuration an attempt reads: `VITE_API_URL` and the
page location parts used by `getApiUrl`. -/
structure Config where
  vite : Option String
  protocol : String
  hostname : String
  deriving DecidableEq, Repr

/-- The environment of one attempt: the outcome of every external
interaction it performs.
* `camera` — `getUserMedia`: a fresh stream (identified by `streamId`) or a
  rejection (permission denied / no device), whose message is thrown.
* `videoLoads` — whether `onloadedmetadata` fires within the 5000 ms race;
  when false, `"Video load timeout"` is thrown.
* `frame` — the base64 bits the canvas encodes for this attempt.
* `userAgent`, `platform`, `language`, `nowIso` — the `navigator` fields and
  `new Date().toISOString()` at assembly time.
* `geoFirst`, `geoRest` — the interleaving of race events inside
  `getLocationWithFallback`, as first event plus rest: the list is nonempty
  because the 10000 ms timer always fires unless a callback already cleared
  it, so some event always occurs.
* `ipOutcome`, `serverOutcome` — the two guarded fetches. -/
structure AttemptEnv where
  camera : Except String Nat
  videoLoads : Bool
  frame : String
  userAgent : String
  platform : String
  language : String
  nowIso : String
  geoFirst : GeoEvent
  geoRest : List GeoEvent
  ipOutcome : IpOutcome
  serverOutcome : UploadOutcome
  deriving DecidableEq, Repr

/-- How one attempt ends:
* `success` — the server answered ok and its body parsed; the payload is the
  one that was submitted;
* `thrown` — an error reached the `catch (error)` block, with
  `error.message`;
* `hangs` — an awaited promise never settles (only possible for an empty
  geolocation interleaving, which `AttemptEnv` already excludes; kept so the
  embedding stays total without inventing a value). -/
inductive AttemptOutcome where
  | success (payload : Payload)
  | thrown (msg : String)
  | hangs
  deriving DecidableEq, Repr

/-- Whether the attempt succeeded. -/
def AttemptOutcome.isSuccess : AttemptOutcome → Bool
  | .success _ => true
  | _ => false

/-- Trace and outcome of one attempt. -/
structure AttemptResult where
  trace : List Action
  outcome : AttemptOutcome
  deriving DecidableEq, Repr

/-- One run of `captureData`'s `try` block, in source order:
set `"Requesting camera access..."`; `getUserMedia` (a rejection propagates
to the catch); race `onloadedmetadata` against 5000 ms (`"Video load
timeout"` on expiry); set `"Capturing photo..."`; draw and encode one frame;
stop every track of the stream; set `"Getting location..."`; await
`getLocationWithFallback`; set `"Getting device info..."`; build
`deviceInfo`; run the guarded IP lookup (never throws); set
`"Saving data..."`; assemble the payload; resolve the endpoint; POST the
payload to `apiUrl ++ "/api/capture"` with `Content-Type: application/json`
under a 30000 ms guard; on `response.ok` parse the body and set the success
status, otherwise throw `"Server error: " ++ status`. -/
def captureAttempt (cfg : Config) (env : AttemptEnv) : AttemptResult :=
  let t0 : List Action := [.setStatus .requestingCamera]
  match env.camera with
  | .error msg => { trace := t0, outcome := .thrown msg }
  | .ok streamId =>
    let t1 := t0 ++ [.acquireStream streamId]
    if env.videoLoads = false then
      { trace := t1, outcome := .thrown "Video load timeout" }
    else
      let image := toDataURL env.frame
      let t2 := t1 ++ [.setStatus .capturingPhoto, .encodeFrame,
                       .stopTracks streamId, .setStatus .gettingLocation]
      match geoResolve (env.geoFirst :: env.geoRest) with
      | none => { trace := t2, outcome := .hangs }
      | some location =>
        let t3 := t2 ++ [.setStatus .gettingDeviceInfo]
        let deviceInfo : DeviceInfo :=
          { userAgent := env.userAgent, platform := env.platform,
            language := env.language, timestamp := env.nowIso }
        let payload : Payload :=
          { image := image, location := location, deviceInfo := deviceInfo,
            ipAddress := ipAddressFor env.ipOutcome }
        let apiUrl := getApiUrl cfg.vite cfg.protocol cfg.hostname
        let t4 := t3 ++ [.setStatus .savingData,
                         .postUpload (apiUrl ++ "/api/capture") "application/json" 30000 payload]
        match env.serverOutcome with
        | .timeout => { trace := t4, outcome := .thrown "Upload timeout" }
        | .networkError msg => { trace := t4, outcome := .thrown msg }
        | .response status parse =>
          if respOk status then
            match parse with
            | .ok _ => { trace := t4 ++ [.setStatus .success], outcome := .success payload }
            | .error msg => { trace := t4, outcome := .thrown msg }
          else
            { trace := t4, outcome := .thrown ("Server error: " ++ toString status) }

/-- The sequence of statuses an attempt displays, in order. -/
def statusesOf : List Action → List Status
  | [] => []
  | .setStatus s :: rest => s :: statusesOf rest
  | _ :: rest => statusesOf rest

/-- The payload one attempt assembles given its environment (derived
characterization: `captureAttempt` is proved to submit exactly this value
whenever it reaches the upload step). -/
def assemblePayload (env : AttemptEnv) : Payload :=
  { image := toDataURL env.frame
    location := geoEventValue env.geoFirst
    deviceInfo :=
      { userAgent := env.userAgent, platform := env.platform,
        language := env.language, timestamp := env.nowIso }
    ipAddress := ipAddressFor env.ipOutcome }

/-! ## The retry loop across one mount lifetime (source lines 221–236) -/

/-- The component state one mount lifetime accumulates: the displayed
status, the displayed `retryCount` React state, and how many times
`captureData` has run. -/
structure MountState where
  status : Status
  retryCount : Nat
  attempts : Nat
  deriving DecidableEq, Repr

/-- The state at mount: `useState` initial values, no attempt yet. -/
def mountInit : MountState :=
  { status := .loading, retryCount := 0, attempts := 0 }

/-- The retry loop with React closure semantics.  `closureRC` is the
`retryCount` value captured by the render that created the running
`captureData` instance; the source's retry path calls `captureData()` from
inside its own `catch`, which resolves to the same function instance, so the
recursive call passes `closureRC` unchanged.  The mount effect runs the
instance of the first render, whose captured value is 0.

Each list element is the environment of one attempt; an empty list or
exhausted fuel returns the state reached so far (the run is still waiting).
On a thrown error the source sets `"Error: " ++ msg`, then:
if `closureRC < MAX_RETRIES` it sets the state to `closureRC + 1`, waits
2000 ms, sets `"Retrying..."` and reruns; otherwise it sets the terminal
failure status. -/
def runMount (cfg : Config) : Nat → Nat → List AttemptEnv → MountState → MountState
  | 0, _, _, st => st
  | _ + 1, _, [], st => st
  | fuel + 1, closureRC, env :: rest, st =>
    let st := { st with attempts := st.attempts + 1 }
    match (captureAttempt cfg env).outcome with
    | .success _ => { st with status := .success }
    | .hangs => st
    | .thrown msg =>
      let st := { st with status := .errorMsg msg }
      if closureRC < MAX_RETRIES then
        runMount cfg fuel closureRC rest
          { st with retryCount := closureRC + 1, status := .retrying }
      else
        { st with status := .failed }

/-! ## Derived characterizations and concrete fixtures -/

/-- The URL the upload is POSTed to. -/
def uploadUrl (cfg : Config) : String :=
  getApiUrl cfg.vite cfg.protocol cfg.hostname ++ "/api/capture"

/-- The trace of an attempt up to and including the POST, when the camera is
granted (`sid` is its stream) and the video metadata loads in time (derived
characterization of `captureAttempt`). -/
def preUploadTrace (cfg : Config) (env : AttemptEnv) (sid : Nat) : List Action :=
  [.setStatus .requestingCamera, .acquireStream sid, .setStatus .capturingPhoto,
   .encodeFrame, .stopTracks sid, .setStatus .gettingLocation,
   .setStatus .gettingDeviceInfo, .setStatus .savingData,
   .postUpload (uploadUrl cfg) "application/json" 30000 (assemblePayload env)]

/-- The actions after the POST: the success status is set exactly when the
response is ok and its body parses. -/
def finishTrace (env : AttemptEnv) : List Action :=
  match env.serverOutcome with
  | .response status (.ok _) => if respOk status then [.setStatus .success] else []
  | _ => []

/-- The outcome of an attempt that reached the POST, as a function of the
server outcome and the submitted payload. -/
def finishOutcome (env : AttemptEnv) (p : Payload) : AttemptOutcome :=
  match env.serverOutcome with
  | .timeout => .thrown "Upload timeout"
  | .networkError msg => .thrown msg
  | .response status parse =>
    if respOk status then
      match parse with
      | .ok _ => .success p
      | .error msg => .thrown msg
    else .thrown ("Server error: " ++ toString status)

/-- A development-style configuration: no `VITE_API_URL`, page served from
`http://localhost`. -/
def cfg0 : Config :=
  { vite := none, protocol := "http:", hostname := "localhost" }

/-- An attempt in which everything succeeds: camera granted (stream 7),
metadata loads, geolocation succeeds first, IP lookup returns an address,
server answers 200 with a parsable body. -/
def happyEnv : AttemptEnv :=
  { camera := .ok 7, videoLoads := true, frame := "QUJD",
    userAgent := "UA", platform := "Linux x86_64", language := "en-US",
    nowIso := "2026-10-12T00:00:00.000Z",
    geoFirst := .geoSuccess { latitude := 10, longitude := 20, accuracy := 5 },
    geoRest := [],
    ipOutcome := .ok { ip := some "203.0.113.7" },
    serverOutcome := .response 200 (.ok ()) }

/-- Like `happyEnv`, but the server answers HTTP 500 (spec Scenario D). -/
def failEnv : AttemptEnv :=
  { happyEnv with serverOutcome := .response 500 (.ok ()) }

/-- Like `happyEnv`, but geolocation permission is denied (spec Scenario B). -/
def geoDeniedEnv : AttemptEnv :=
  { happyEnv with geoFirst := .geoError "User denied Geolocation" }

/-- Like `happyEnv`, but the IP lookup exceeds its 5000 ms guard
(spec Scenario C). -/
def ipFailEnv : AttemptEnv :=
  { happyEnv with ipOutcome := .timeout }

/-- Like `happyEnv`, but the IP lookup returns a body with no `ip` member. -/
def noIpEnv : AttemptEnv :=
  { happyEnv with ipOutcome := .ok { ip := none } }

/-- Like `happyEnv`, but the video metadata never loads within 5000 ms
(spec Scenario E). -/
def videoFailEnv : AttemptEnv :=
  { happyEnv with videoLoads := false }

/-! ## Helper lemmas -/

theorem geoResolveOnce_of_some (st : GeoState) (v w : LocationResult)
    (h : st.resolved = some v) : (geoResolveOnce st w).resolved = some v := by
  simp [geoResolveOnce, h]

theorem geoStep_resolved_some (st : GeoState) (e : GeoEvent) (v : LocationResult)
    (h : st.resolved = some v) : (geoStep st e).resolved = some v := by
  cases e with
  | timeoutFires =>
    simp only [geoStep]
    split
    · exact geoResolveOnce_of_some _ _ _ (by simpa using h)
    · exact h
  | geoSuccess pos => exact geoResolveOnce_of_some _ _ _ (by simpa using h)
  | geoError msg => exact geoResolveOnce_of_some _ _ _ (by simpa using h)

theorem geoFold_resolved_some (es : List GeoEvent) (st : GeoState) (v : LocationResult)
    (h : st.resolved = some v) : (es.foldl geoStep st).resolved = some v := by
  induction es generalizing st with
  | nil => simpa using h
  | cons e rest ih =>
    rw [List.foldl_cons]
    exact ih _ (geoStep_resolved_some st e v h)

theorem geoResolve_cons (e : GeoEvent) (es : List GeoEvent) :
    geoResolve (e :: es) = some (geoEventValue e) := by
  unfold geoResolve geoRun
  rw [List.foldl_cons]
  apply geoFold_resolved_some
  cases e <;> simp [geoStep, geoResolveOnce, geoEventValue]

theorem str_append_ne_empty (a b : String) (h : 0 < a.length) : a ++ b ≠ "" := by
  intro heq
  have hlen : (a ++ b).length = (0 : Nat) := by rw [heq]; rfl
  rw [String.length_append] at hlen
  omega

theorem captureAttempt_ok (cfg : Config) (env : AttemptEnv) (sid : Nat)
    (hc : env.camera = .ok sid) (hv : env.videoLoads = true) :
    captureAttempt cfg env =
      { trace := preUploadTrace cfg env sid ++ finishTrace env,
        outcome := finishOutcome env (assemblePayload env) } := by
  unfold captureAttempt
  rw [hc]
  simp only [hv, geoResolve_cons]
  cases hs : env.serverOutcome with
  | timeout =>
    simp [preUploadTrace, finishTrace, finishOutcome, assemblePayload, uploadUrl, hs,
      geoEventValue]
  | networkError msg =>
    simp [preUploadTrace, finishTrace, finishOutcome, assemblePayload, uploadUrl, hs,
      geoEventValue]
  | response status parse =>
    cases parse with
    | ok u =>
      by_cases hok : respOk status = true <;>
        simp [preUploadTrace, finishTrace, finishOutcome, assemblePayload, uploadUrl, hs,
          geoEventValue, hok]
    | error msg =>
      by_cases hok : respOk status = true <;>
        simp [preUploadTrace, finishTrace, finishOutcome, assemblePayload, uploadUrl, hs,
          geoEventValue, hok]

theorem geoResolveOnce_timerActive (st : GeoState) (v : LocationResult) :
    (geoResolveOnce st v).timerActive = st.timerActive := by
  cases hst : st.resolved <;> simp [geoResolveOnce, hst]

theorem ipAddressOf_ne_empty (d : IpData) : ipAddressOf d ≠ "" := by
  cases d with
  | mk ip =>
    cases ip with
    | none => decide
    | some s =>
      show (if s = "" then "Unknown" else s) ≠ ""
      split
      · decide
      · rename_i hs
        exact hs

theorem ipAddressFor_ne_empty (o : IpOutcome) : ipAddressFor o ≠ "" :=
  ipAddressOf_ne_empty _

theorem location_toJson_keys (l : LocationResult) :
    ∃ rest, Json.topKeys l.toJson = "latitude" :: "longitude" :: rest := by
  cases l with
  | mk lat long acc err =>
    cases acc with
    | none =>
      cases err with
      | none => exact ⟨[], rfl⟩
      | some e => exact ⟨["error"], rfl⟩
    | some a =>
      cases err with
      | none => exact ⟨["accuracy"], rfl⟩
      | some e => exact ⟨["accuracy", "error"], rfl⟩

theorem finishTrace_only_setStatus (env : AttemptEnv) (a : Action)
    (h : a ∈ finishTrace env) : ∃ s, a = Action.setStatus s := by
  unfold finishTrace at h
  split at h
  · split at h
    · simp at h
      exact ⟨_, h⟩
    · simp at h
  · simp at h

theorem runMount_zero_never_failed (cfg : Config) (fuel : Nat) :
    ∀ (envs : List AttemptEnv) (st : MountState),
      st.status ≠ Status.failed → (runMount cfg fuel 0 envs st).status ≠ Status.failed := by
  induction fuel with
  | zero =>
    intro envs st h
    simpa [runMount] using h
  | succ k ih =>
    intro envs st h
    cases envs with
    | nil => simpa [runMount] using h
    | cons env rest =>
      simp only [runMount]
      cases hout : (captureAttempt cfg env).outcome with
      | success p => simp [hout]
      | hangs =>
        simp only [hout]
        exact h
      | thrown msg =>
        simp only [hout, MAX_RETRIES]
        rw [if_pos (by decide : (0 : Nat) < 3)]
        exact ih rest _ (by simp)

theorem runMount_fail_chain (n : Nat) :
    ∀ st : MountState,
      (runMount cfg0 (n + 1) 0 (List.replicate n failEnv) st).attempts = st.attempts + n ∧
      (runMount cfg0 (n + 1) 0 (List.replicate n failEnv) st).retryCount =
        (if n = 0 then st.retryCount else 1) ∧
      (runMount cfg0 (n + 1) 0 (List.replicate n failEnv) st).status =
        (if n = 0 then st.status else Status.retrying) := by
  induction n with
  | zero =>
    intro st
    simp [runMount]
  | succ k ih =>
    intro st
    have hout : (captureAttempt cfg0 failEnv).outcome = .thrown "Server error: 500" := by
      decide
    rw [List.replicate_succ]
    simp only [runMount, hout, MAX_RETRIES]
    rw [if_pos (by decide : (0 : Nat) < 3)]
    obtain ⟨h1, h2, h3⟩ :=
      ih { status := Status.retrying, retryCount := 0 + 1,
           attempts := st.attempts + 1 }
    refine ⟨?_, ?_, ?_⟩
    · rw [h1]
      simp only []
      omega
    · rw [h2]
      cases k <;> simp
    · rw [h3]
      cases k <;> simp

/-! ## Claims -/

/-- Claim C1.  The claim says the retry counter is capped at `MAX_RETRIES`
and exactly `MAX_RETRIES + 1 = 4` attempts of `captureData` occur before the
terminal `Failed` status.  The code does not satisfy it: the retry path calls
`captureData()` from inside its own `catch`, which is the function instance
of the mount render, whose captured `retryCount` is 0; so every failing
attempt checks `0 < MAX_RETRIES` and sets the state to `0 + 1`.  This
theorem proves that (1) with the mount-render closure the `Failed` status is
unreachable for every configuration, fuel, attempt sequence and start state,
(2) `n` consecutive failing attempts run `captureData` `n` times for every
`n` — in particular a 5th attempt occurs, and (3) after any positive number
of failing attempts the component sits at `Retrying` with the displayed
`retryCount` stuck at 1. -/
theorem retry_cap_never_reaches_failed :
    (∀ (cfg : Config) (fuel : Nat) (envs : List AttemptEnv) (st : MountState),
        st.status ≠ Status.failed →
        (runMount cfg fuel 0 envs st).status ≠ Status.failed) ∧
    (∀ n : Nat,
        (runMount cfg0 (n + 1) 0 (List.replicate n failEnv) mountInit).attempts = n) ∧
    (∀ n : Nat, n ≠ 0 →
        (runMount cfg0 (n + 1) 0 (List.replicate n failEnv) mountInit).status =
          Status.retrying ∧
        (runMount cfg0 (n + 1) 0 (List.replicate n failEnv) mountInit).retryCount = 1) := by
  refine ⟨fun cfg fuel => runMount_zero_never_failed cfg fuel, ?_, ?_⟩
  · intro n
    have h := (runMount_fail_chain n mountInit).1
    simpa [mountInit] using h
  · intro n hn
    obtain ⟨h1, h2, h3⟩ := runMount_fail_chain n mountInit
    refine ⟨?_, ?_⟩
    · rw [h3, if_neg hn]
    · rw [h2, if_neg hn]

/-- Witness for C1 at a concrete run: five consecutive failing attempts
(server answers HTTP 500 each time) leave the component retrying with
displayed `retryCount` 1, having run `captureData` five times, and never
reach the `Failed` status. -/
theorem retry_cap_never_reaches_failed_witness :
    (runMount cfg0 10 0 (List.replicate 5 failEnv) mountInit).status ≠ Status.failed ∧
    (runMount cfg0 6 0 (List.replicate 5 failEnv) mountInit).attempts = 5 ∧
    (runMount cfg0 6 0 (List.replicate 5 failEnv) mountInit).status = Status.retrying ∧
    (runMount cfg0 6 0 (List.replicate 5 failEnv) mountInit).retryCount = 1 :=
  ⟨retry_cap_never_reaches_failed.1 cfg0 10 (List.replicate 5 failEnv) mountInit
      (by decide),
   retry_cap_never_reaches_failed.2.1 5,
   (retry_cap_never_reaches_failed.2.2 5 (by decide)).1,
   (retry_cap_never_reaches_failed.2.2 5 (by decide)).2⟩

/-- Claim C2.  `getApiUrl` returns the configured URL when present, and
appends `":5000"` exactly for the loopback hostnames; but for every other
hostname it returns `protocol ++ "//" ++ hostname` with no port at all,
NOT the page's own origin: a page served from a non-default port (here
`http://example.com:8080`) has its port dropped, although the code's own
comment says "otherwise use current port". -/
theorem getApiUrl_drops_page_port :
    getApiUrl (some "https://api.example.com") "http:" "example.com" =
      "https://api.example.com" ∧
    getApiUrl none "http:" "localhost" = "http://localhost:5000" ∧
    getApiUrl none "https:" "127.0.0.1" = "https://127.0.0.1:5000" ∧
    getApiUrl none "http:" "example.com" = "http://example.com" ∧
    pageOrigin "http:" "example.com" "8080" = "http://example.com:8080" ∧
    getApiUrl none "http:" "example.com" ≠ pageOrigin "http:" "example.com" "8080" := by
  refine ⟨by decide, by decide, by decide, by decide, by decide, by decide⟩

/-- Claim C3.  `getLocationWithFallback` never raises: for every race
interleaving it resolves — with the real coordinates (and accuracy) when the
success callback fires first, and with `latitude 0 / longitude 0` and a
non-empty `error` string when the error callback or the 10000 ms timer fires
first — the resolved value is the payload's `location`, and the attempt
still proceeds to the upload POST. -/
theorem location_fallback_total :
    ∀ (cfg : Config) (env : AttemptEnv) (sid : Nat),
      env.camera = Except.ok sid → env.videoLoads = true →
      ∃ r : LocationResult,
        geoResolve (env.geoFirst :: env.geoRest) = some r ∧
        ((∃ pos, env.geoFirst = GeoEvent.geoSuccess pos ∧
            r = { latitude := pos.latitude, longitude := pos.longitude,
                  accuracy := some pos.accuracy, error := none }) ∨
         (r.latitude = 0 ∧ r.longitude = 0 ∧ ∃ s, r.error = some s ∧ s ≠ "")) ∧
        (assemblePayload env).location = r ∧
        Action.postUpload (uploadUrl cfg) "application/json" 30000 (assemblePayload env)
          ∈ (captureAttempt cfg env).trace := by
  intro cfg env sid hc hv
  refine ⟨geoEventValue env.geoFirst, geoResolve_cons _ _, ?_, rfl, ?_⟩
  · cases hg : env.geoFirst with
    | geoSuccess pos => exact Or.inl ⟨pos, rfl, rfl⟩
    | geoError msg =>
      exact Or.inr ⟨rfl, rfl, "Location error: " ++ msg, rfl,
        str_append_ne_empty _ _ (by decide)⟩
    | timeoutFires =>
      exact Or.inr ⟨rfl, rfl, "Location timeout - using default", rfl, by decide⟩
  · rw [captureAttempt_ok cfg env sid hc hv]
    simp [preUploadTrace]

/-- Witness for C3 at a concrete attempt in which geolocation permission is
denied (spec Scenario B). -/
theorem location_fallback_total_witness :
    ∃ r : LocationResult,
      geoResolve (geoDeniedEnv.geoFirst :: geoDeniedEnv.geoRest) = some r ∧
      ((∃ pos, geoDeniedEnv.geoFirst = GeoEvent.geoSuccess pos ∧
          r = { latitude := pos.latitude, longitude := pos.longitude,
                accuracy := some pos.accuracy, error := none }) ∨
       (r.latitude = 0 ∧ r.longitude = 0 ∧ ∃ s, r.error = some s ∧ s ≠ "")) ∧
      (assemblePayload geoDeniedEnv).location = r ∧
      Action.postUpload (uploadUrl cfg0) "application/json" 30000
          (assemblePayload geoDeniedEnv)
        ∈ (captureAttempt cfg0 geoDeniedEnv).trace :=
  location_fallback_total cfg0 geoDeniedEnv 7 (by decide) (by decide)

/-- Claim C4.  Whenever the IP lookup fails (network/parse error or the
5000 ms guard), the assembled payload's `ipAddress` is the sentinel
`"Unknown"`, the attempt still performs the upload POST, and its outcome is
exactly the one the server outcome dictates — the lookup failure never
reaches the orchestrator's error boundary. -/
theorem ip_failure_degrades_to_unknown :
    ∀ (cfg : Config) (env : AttemptEnv) (sid : Nat),
      env.camera = Except.ok sid → env.videoLoads = true →
      env.ipOutcome.isFailure = true →
      (assemblePayload env).ipAddress = "Unknown" ∧
      (captureAttempt cfg env).trace = preUploadTrace cfg env sid ++ finishTrace env ∧
      (captureAttempt cfg env).outcome = finishOutcome env (assemblePayload env) := by
  intro cfg env sid hc hv hip
  refine ⟨?_, ?_, ?_⟩
  · show ipAddressFor env.ipOutcome = "Unknown"
    cases ho : env.ipOutcome with
    | fetchFails e => rfl
    | timeout => rfl
    | ok data =>
      rw [ho] at hip
      simp [IpOutcome.isFailure] at hip
  · rw [captureAttempt_ok cfg env sid hc hv]
  · rw [captureAttempt_ok cfg env sid hc hv]

/-- Witness for C4 at a concrete attempt whose IP lookup exceeds its 5000 ms
guard (spec Scenario C). -/
theorem ip_failure_degrades_to_unknown_witness :
    (assemblePayload ipFailEnv).ipAddress = "Unknown" ∧
    (captureAttempt cfg0 ipFailEnv).trace =
      preUploadTrace cfg0 ipFailEnv 7 ++ finishTrace ipFailEnv ∧
    (captureAttempt cfg0 ipFailEnv).outcome =
      finishOutcome ipFailEnv (assemblePayload ipFailEnv) :=
  ip_failure_degrades_to_unknown cfg0 ipFailEnv 7 (by decide) (by decide) (by decide)

/-- Claim C5.  Every attempt that reaches the submission step POSTs a
payload whose JSON serialization has exactly the four top-level members
`image`, `location`, `deviceInfo`, `ipAddress`; `image` and `ipAddress` are
non-empty strings, `location` always carries `latitude` and `longitude`,
`deviceInfo` carries its four members; and the only payload occurring in the
submission action is the assembled one, with the fixed header and timeout —
nothing mutates it between assembly and submission. -/
theorem payload_complete_at_submission :
    ∀ (cfg : Config) (env : AttemptEnv) (sid : Nat),
      env.camera = Except.ok sid → env.videoLoads = true →
      Action.postUpload (uploadUrl cfg) "application/json" 30000 (assemblePayload env)
        ∈ (captureAttempt cfg env).trace ∧
      (∀ url ct ms p, Action.postUpload url ct ms p ∈ (captureAttempt cfg env).trace →
        url = uploadUrl cfg ∧ ct = "application/json" ∧ ms = 30000 ∧
        p = assemblePayload env) ∧
      Json.topKeys (Payload.toJson (assemblePayload env)) =
        ["image", "location", "deviceInfo", "ipAddress"] ∧
      (assemblePayload env).image ≠ "" ∧
      (assemblePayload env).ipAddress ≠ "" ∧
      (∃ rest, Json.topKeys (LocationResult.toJson (assemblePayload env).location) =
        "latitude" :: "longitude" :: rest) ∧
      Json.topKeys (DeviceInfo.toJson (assemblePayload env).deviceInfo) =
        ["userAgent", "platform", "language", "timestamp"] := by
  intro cfg env sid hc hv
  refine ⟨?_, ?_, rfl, ?_, ipAddressFor_ne_empty env.ipOutcome, location_toJson_keys _, rfl⟩
  · rw [captureAttempt_ok cfg env sid hc hv]
    simp [preUploadTrace]
  · intro url ct ms p hmem
    rw [captureAttempt_ok cfg env sid hc hv] at hmem
    simp only [List.mem_append] at hmem
    cases hmem with
    | inl hpre =>
      simp [preUploadTrace] at hpre
      exact ⟨hpre.1, hpre.2.1, hpre.2.2.1, hpre.2.2.2⟩
    | inr hfin =>
      obtain ⟨s, hs⟩ := finishTrace_only_setStatus env _ hfin
      simp at hs
  · exact str_append_ne_empty _ _ (by decide)

/-- Witness for C5 at the fully successful concrete attempt. -/
theorem payload_complete_at_submission_witness :
    Action.postUpload (uploadUrl cfg0) "application/json" 30000 (assemblePayload happyEnv)
      ∈ (captureAttempt cfg0 happyEnv).trace ∧
    Json.topKeys (Payload.toJson (assemblePayload happyEnv)) =
      ["image", "location", "deviceInfo", "ipAddress"] ∧
    (assemblePayload happyEnv).image ≠ "" ∧
    (assemblePayload happyEnv).ipAddress ≠ "" :=
  ⟨(payload_complete_at_submission cfg0 happyEnv 7 (by decide) (by decide)).1,
   (payload_complete_at_submission cfg0 happyEnv 7 (by decide) (by decide)).2.2.1,
   (payload_complete_at_submission cfg0 happyEnv 7 (by decide) (by decide)).2.2.2.1,
   (payload_complete_at_submission cfg0 happyEnv 7 (by decide) (by decide)).2.2.2.2.1⟩

/-- Claim C6.  The submission POSTs the payload to
`{endpoint}/api/capture` with `Content-Type: application/json` under a
30000 ms guard; `response.ok` is exactly HTTP 2xx; a non-2xx status makes
the attempt fail with `"Server error: " ++ status` (propagated to the retry
boundary as a thrown outcome), and a 2xx response whose body parses ends the
attempt in `Success`, the success status being the last one displayed. -/
theorem submission_contract :
    ∀ (cfg : Config) (env : AttemptEnv) (sid status : Nat) (parse : Except String Unit),
      env.camera = Except.ok sid → env.videoLoads = true →
      env.serverOutcome = UploadOutcome.response status parse →
      (respOk status = true ↔ 200 ≤ status ∧ status ≤ 299) ∧
      Action.postUpload (uploadUrl cfg) "application/json" 30000 (assemblePayload env)
        ∈ (captureAttempt cfg env).trace ∧
      (respOk status = false →
        (captureAttempt cfg env).outcome =
          AttemptOutcome.thrown ("Server error: " ++ toString status)) ∧
      (respOk status = true → parse = Except.ok () →
        (captureAttempt cfg env).outcome = AttemptOutcome.success (assemblePayload env) ∧
        (statusesOf (captureAttempt cfg env).trace).getLast? = some Status.success) := by
  intro cfg env sid status parse hc hv hs
  rw [captureAttempt_ok cfg env sid hc hv]
  refine ⟨?_, ?_, ?_, ?_⟩
  · simp [respOk, Bool.and_eq_true, decide_eq_true_eq]
  · simp [preUploadTrace]
  · intro hok
    simp [finishOutcome, hs, hok]
  · intro hok hp
    subst hp
    constructor
    · simp [finishOutcome, hs, hok]
    · simp [finishTrace, hs, hok, statusesOf, preUploadTrace]

/-- Witness for C6: the concrete 2xx attempt succeeds with `Success` last,
and the concrete HTTP 500 attempt throws `"Server error: 500"`. -/
theorem submission_contract_witness :
    ((captureAttempt cfg0 happyEnv).outcome =
        AttemptOutcome.success (assemblePayload happyEnv) ∧
      (statusesOf (captureAttempt cfg0 happyEnv).trace).getLast? =
        some Status.success) ∧
    (captureAttempt cfg0 failEnv).outcome =
      AttemptOutcome.thrown ("Server error: " ++ toString 500) :=
  ⟨(submission_contract cfg0 happyEnv 7 200 (Except.ok ()) (by decide) (by decide)
      rfl).2.2.2 (by decide) rfl,
   (submission_contract cfg0 failEnv 7 500 (Except.ok ()) (by decide) (by decide)
      rfl).2.2.1 (by decide)⟩

/-- Counterexample to Claim C7: a fully successful concrete attempt displays
the statuses `RequestingCamera, CapturingPhoto, GettingLocation,
GettingDeviceInfo, SavingData, Success` and never enters `FetchingIP` — the
source has no `setStatus` call between building `deviceInfo` and
`"Saving data..."`, so the claimed `FetchingIP` state is not traversed. -/
theorem fetchingIP_never_displayed :
    (captureAttempt cfg0 happyEnv).outcome.isSuccess = true ∧
    statusesOf (captureAttempt cfg0 happyEnv).trace =
      [Status.requestingCamera, Status.capturingPhoto, Status.gettingLocation,
       Status.gettingDeviceInfo, Status.savingData, Status.success] ∧
    Status.fetchingIP ∉ statusesOf (captureAttempt cfg0 happyEnv).trace := by
  refine ⟨by decide, by decide, by decide⟩

/-- Claim C7 (amended): during one successful attempt the exposed status
traverses, in order, `RequestingCamera, CapturingPhoto, GettingLocation,
GettingDeviceInfo, SavingData, Success`, each entered exactly once; no
`FetchingIP` status exists in the sequence — the IP lookup runs while
`"Getting device info..."` is still displayed. -/
theorem successful_attempt_status_order :
    ∀ (cfg : Config) (env : AttemptEnv) (p : Payload),
      (captureAttempt cfg env).outcome = AttemptOutcome.success p →
      statusesOf (captureAttempt cfg env).trace =
        [Status.requestingCamera, Status.capturingPhoto, Status.gettingLocation,
         Status.gettingDeviceInfo, Status.savingData, Status.success] := by
  intro cfg env p h
  cases hc : env.camera with
  | error msg =>
    exfalso
    have hout : (captureAttempt cfg env).outcome = .thrown msg := by
      unfold captureAttempt
      rw [hc]
    rw [hout] at h
    simp at h
  | ok sid =>
    cases hv : env.videoLoads with
    | false =>
      exfalso
      have hout : (captureAttempt cfg env).outcome = .thrown "Video load timeout" := by
        unfold captureAttempt
        rw [hc]
        simp [hv]
      rw [hout] at h
      simp at h
    | true =>
      rw [captureAttempt_ok cfg env sid hc hv] at h ⊢
      cases hs : env.serverOutcome with
      | timeout =>
        exfalso
        simp [finishOutcome, hs] at h
      | networkError m =>
        exfalso
        simp [finishOutcome, hs] at h
      | response status parse =>
        by_cases hok : respOk status = true
        · cases parse with
          | ok u =>
            simp [finishTrace, hs, hok, statusesOf, preUploadTrace]
          | error m =>
            exfalso
            simp [finishOutcome, hs, hok] at h
        · exfalso
          simp [finishOutcome, hs, hok] at h

/-- Witness for the amended C7 at the fully successful concrete attempt. -/
theorem successful_attempt_status_order_witness :
    statusesOf (captureAttempt cfg0 happyEnv).trace =
      [Status.requestingCamera, Status.capturingPhoto, Status.gettingLocation,
       Status.gettingDeviceInfo, Status.savingData, Status.success] :=
  successful_attempt_status_order cfg0 happyEnv (assemblePayload happyEnv) (by decide)

/-- Claim C8.  The promise inside `getLocationWithFallback` is resolved
exactly once in every interleaving: (1) once resolved, no later event
changes the value; (2) whichever race event fires first determines the
resolved value, for every continuation — in particular a late geolocation
callback after the timeout does not change it; (3) and (4) when the
geolocation success or error callback runs, the pending timer is cleared. -/
theorem geo_race_resolves_once :
    (∀ (st : GeoState) (v : LocationResult) (es : List GeoEvent),
        st.resolved = some v → (es.foldl geoStep st).resolved = some v) ∧
    (∀ (e : GeoEvent) (es : List GeoEvent),
        geoResolve (e :: es) = some (geoEventValue e)) ∧
    (∀ (st : GeoState) (pos : Coords),
        (geoStep st (GeoEvent.geoSuccess pos)).timerActive = false) ∧
    (∀ (st : GeoState) (msg : String),
        (geoStep st (GeoEvent.geoError msg)).timerActive = false) := by
  refine ⟨fun st v es h => geoFold_resolved_some es st v h, geoResolve_cons, ?_, ?_⟩
  · intro st pos
    show (geoResolveOnce { st with timerActive := false } _).timerActive = false
    rw [geoResolveOnce_timerActive]
  · intro st msg
    show (geoResolveOnce { st with timerActive := false } _).timerActive = false
    rw [geoResolveOnce_timerActive]

/-- Witness for C8: when the timeout fires first and the success callback
arrives late, the resolved value stays the timeout default. -/
theorem geo_race_resolves_once_witness :
    (([GeoEvent.geoSuccess { latitude := 1, longitude := 2, accuracy := 3 }].foldl geoStep
        { resolved := some (geoEventValue GeoEvent.timeoutFires), timerActive := false }).resolved
      = some (geoEventValue GeoEvent.timeoutFires)) ∧
    geoResolve [GeoEvent.timeoutFires,
        GeoEvent.geoSuccess { latitude := 1, longitude := 2, accuracy := 3 }] =
      some (geoEventValue GeoEvent.timeoutFires) :=
  ⟨geo_race_resolves_once.1
      { resolved := some (geoEventValue GeoEvent.timeoutFires), timerActive := false }
      (geoEventValue GeoEvent.timeoutFires)
      [GeoEvent.geoSuccess { latitude := 1, longitude := 2, accuracy := 3 }] rfl,
   geo_race_resolves_once.2.1 GeoEvent.timeoutFires
      [GeoEvent.geoSuccess { latitude := 1, longitude := 2, accuracy := 3 }]⟩

/-- Claim C9.  When the camera is granted: if the video metadata loads, the
attempt's trace starts with acquiring the stream, encoding the frame,
stopping the stream's tracks, and only then entering location resolution;
if an exception interrupts between acquisition and the stop call (the
5000 ms metadata timeout), the trace ends at the acquisition — no track of
the stream is ever stopped — and the attempt throws `"Video load timeout"`;
and an attempt only ever touches the stream it acquired itself, so a retry
(a fresh `captureData` run on its own environment) performs its own
`getUserMedia` rather than reusing a prior stream. -/
theorem stream_cleanup_on_happy_path_only :
    ∀ (cfg : Config) (env : AttemptEnv) (sid : Nat),
      env.camera = Except.ok sid →
      (env.videoLoads = true →
        ∃ rest, (captureAttempt cfg env).trace =
          [Action.setStatus Status.requestingCamera, Action.acquireStream sid,
           Action.setStatus Status.capturingPhoto, Action.encodeFrame,
           Action.stopTracks sid, Action.setStatus Status.gettingLocation] ++ rest) ∧
      (env.videoLoads = false →
        (captureAttempt cfg env).trace =
          [Action.setStatus Status.requestingCamera, Action.acquireStream sid] ∧
        (captureAttempt cfg env).outcome = AttemptOutcome.thrown "Video load timeout" ∧
        ∀ id, Action.stopTracks id ∉ (captureAttempt cfg env).trace) ∧
      (∀ id, Action.acquireStream id ∈ (captureAttempt cfg env).trace → id = sid) := by
  intro cfg env sid hc
  have hfail : env.videoLoads = false →
      captureAttempt cfg env =
        { trace := [Action.setStatus Status.requestingCamera, Action.acquireStream sid],
          outcome := AttemptOutcome.thrown "Video load timeout" } := by
    intro hv
    unfold captureAttempt
    rw [hc]
    simp [hv]
  refine ⟨?_, ?_, ?_⟩
  · intro hv
    rw [captureAttempt_ok cfg env sid hc hv]
    exact ⟨[Action.setStatus Status.gettingDeviceInfo, Action.setStatus Status.savingData,
            Action.postUpload (uploadUrl cfg) "application/json" 30000 (assemblePayload env)]
        ++ finishTrace env, by simp [preUploadTrace]⟩
  · intro hv
    rw [hfail hv]
    refine ⟨rfl, rfl, ?_⟩
    intro id
    simp
  · intro id hmem
    cases hv : env.videoLoads with
    | true =>
      rw [captureAttempt_ok cfg env sid hc hv] at hmem
      simp only [List.mem_append] at hmem
      cases hmem with
      | inl hpre =>
        simp [preUploadTrace] at hpre
        exact hpre
      | inr hfin =>
        obtain ⟨s, hs⟩ := finishTrace_only_setStatus env _ hfin
        simp at hs
    | false =>
      rw [hfail hv] at hmem
      simp at hmem
      exact hmem

/-- Witness for C9 at two concrete attempts: the fully successful one and
the one whose video metadata never loads (spec Scenario E). -/
theorem stream_cleanup_on_happy_path_only_witness :
    (∃ rest, (captureAttempt cfg0 happyEnv).trace =
      [Action.setStatus Status.requestingCamera, Action.acquireStream 7,
       Action.setStatus Status.capturingPhoto, Action.encodeFrame,
       Action.stopTracks 7, Action.setStatus Status.gettingLocation] ++ rest) ∧
    ((captureAttempt cfg0 videoFailEnv).trace =
      [Action.setStatus Status.requestingCamera, Action.acquireStream 7] ∧
     (captureAttempt cfg0 videoFailEnv).outcome =
       AttemptOutcome.thrown "Video load timeout" ∧
     ∀ id, Action.stopTracks id ∉ (captureAttempt cfg0 videoFailEnv).trace) :=
  ⟨(stream_cleanup_on_happy_path_only cfg0 happyEnv 7 (by decide)).1 (by decide),
   (stream_cleanup_on_happy_path_only cfg0 videoFailEnv 7 (by decide)).2.1 (by decide)⟩

/-- Claim C10.  A well-formed lookup response whose `ip` member is absent
(or otherwise falsy) or the empty string yields the very sentinel
`"Unknown"` used for an outright lookup failure, so the two are
indistinguishable in the submitted payload. -/
theorem falsy_ip_same_sentinel_as_failure :
    ∀ (d : IpData) (e : String) (env : AttemptEnv),
      (d.ip = none ∨ d.ip = some "") →
      ipAddressFor (IpOutcome.ok d) = "Unknown" ∧
      ipAddressFor (IpOutcome.fetchFails e) = "Unknown" ∧
      ipAddressFor IpOutcome.timeout = "Unknown" ∧
      (env.ipOutcome = IpOutcome.ok d → (assemblePayload env).ipAddress = "Unknown") := by
  intro d e env hd
  have hok : ipAddressFor (IpOutcome.ok d) = "Unknown" := by
    rcases hd with h | h <;> simp [ipAddressFor, resolveIpData, ipAddressOf, h]
  refine ⟨hok, rfl, rfl, ?_⟩
  intro he
  show ipAddressFor env.ipOutcome = "Unknown"
  rw [he]
  exact hok

/-- Witness for C10 at the concrete attempt whose lookup response has no
`ip` member. -/
theorem falsy_ip_same_sentinel_as_failure_witness :
    ipAddressFor (IpOutcome.ok { ip := none }) = "Unknown" ∧
    ipAddressFor (IpOutcome.fetchFails "boom") = "Unknown" ∧
    ipAddressFor IpOutcome.timeout = "Unknown" ∧
    (noIpEnv.ipOutcome = IpOutcome.ok { ip := none } →
      (assemblePayload noIpEnv).ipAddress = "Unknown") :=
  falsy_ip_same_sentinel_as_failure { ip := none } "boom" noIpEnv (Or.inl rfl)

end Capture
